import Mathlib

/-!
Verification development for the MCP-Accounting rule-based financial
calculation engine.  The definitions below are a shallow embedding of the
Python sources (`server/tools/tax/tax_tools.py`,
`server/tools/payroll/payroll_tools.py`,
`server/tools/bookkeeping/bookkeeping_tools.py`,
`server/tools/sales_tax/sales_tax_tools.py`).  Monetary amounts and rates
are rationals; Python's `float('inf')` upper bracket bound is `Option.none`.
Persistence (sqlite) is modelled by explicit state passing.
-/

namespace MCPAccounting

/-! ## Bracket tables (tax_tools.py `_load_tax_tables`) -/

/-- A federal income-tax bracket: `{'min': …, 'max': …, 'rate': …}`.
`max = none` stands for `float('inf')`. -/
structure TBracket where
  min : ℚ
  max : Option ℚ
  rate : ℚ
deriving DecidableEq, Repr

/-- `min(taxable_income, bracket['max'])` where `max = none` is `+∞`. -/
def capO (hi : Option ℚ) (inc : ℚ) : ℚ :=
  match hi with
  | none => inc
  | some m => min inc m

/-- 2024 federal brackets, filing status `'single'`. -/
def federal_brackets_single : List TBracket :=
  [⟨0, some 11600, 10/100⟩,
   ⟨11600, some 47150, 12/100⟩,
   ⟨47150, some 100525, 22/100⟩,
   ⟨100525, some 191050, 24/100⟩,
   ⟨191050, some 243725, 32/100⟩,
   ⟨243725, some 609350, 35/100⟩,
   ⟨609350, none, 37/100⟩]

/-- 2024 federal brackets, filing status `'married_joint'`. -/
def federal_brackets_married_joint : List TBracket :=
  [⟨0, some 23200, 10/100⟩,
   ⟨23200, some 94300, 12/100⟩,
   ⟨94300, some 201050, 22/100⟩,
   ⟨201050, some 383900, 24/100⟩,
   ⟨383900, some 487450, 32/100⟩,
   ⟨487450, some 731200, 35/100⟩,
   ⟨731200, none, 37/100⟩]

/-- `self.federal_brackets_2024.get(filing_status, …['single'])`:
an unknown filing status silently falls back to the `'single'` table. -/
def bracketsFor (filing_status : String) : List TBracket :=
  if filing_status = "married_joint" then federal_brackets_married_joint
  else federal_brackets_single

/-- `self.standard_deductions_2024.get(filing_status, …)`; the caller
`_calculate_individual_tax` defaults to the `'single'` amount. -/
def standard_deductions_2024 (filing_status : String) : ℚ :=
  if filing_status = "single" then 14600
  else if filing_status = "married_joint" then 29200
  else if filing_status = "married_separate" then 14600
  else if filing_status = "head_of_household" then 21900
  else 14600

/-! ## Bracket calculator (`_calculate_federal_tax`, `_get_marginal_rate`) -/

/-- The loop of `_calculate_federal_tax` over an explicit bracket list:
`for bracket in brackets: if taxable_income <= bracket['min']: break;`
`tax += (min(taxable_income, bracket['max']) - bracket['min']) * rate`.
A `break` discards every later bracket, hence the suffix evaluates to 0. -/
def federalTaxLoop (brackets : List TBracket) (taxable_income : ℚ) : ℚ :=
  match brackets with
  | [] => 0
  | b :: rest =>
    if taxable_income ≤ b.min then 0
    else (capO b.max taxable_income - b.min) * b.rate + federalTaxLoop rest taxable_income

/-- `_calculate_federal_tax(taxable_income, filing_status)`. -/
def calculate_federal_tax (taxable_income : ℚ) (filing_status : String) : ℚ :=
  federalTaxLoop (bracketsFor filing_status) taxable_income

/-- Variant of `federalTaxLoop` whose break test is strict
(`taxable_income < bracket['min']`): an income exactly at a bracket floor is
attributed to the upper bracket (where it contributes 0).  Used to express
continuity of the bracket arithmetic at boundaries. -/
def federalTaxLoopUpper (brackets : List TBracket) (taxable_income : ℚ) : ℚ :=
  match brackets with
  | [] => 0
  | b :: rest =>
    if taxable_income < b.min then 0
    else (capO b.max taxable_income - b.min) * b.rate + federalTaxLoopUpper rest taxable_income

/-- The loop of `_get_marginal_rate`: return the rate of the first bracket
with `taxable_income <= bracket['max']`, else `brackets[-1]['rate']`. -/
def marginalRateLoop (brackets : List TBracket) (taxable_income : ℚ) : ℚ :=
  match brackets.find? (fun b =>
      match b.max with
      | none => true
      | some m => taxable_income ≤ m) with
  | some b => b.rate
  | none => ((brackets.getLast?).map TBracket.rate).getD 0

/-- `_get_marginal_rate(taxable_income, filing_status)`. -/
def get_marginal_rate (taxable_income : ℚ) (filing_status : String) : ℚ :=
  marginalRateLoop (bracketsFor filing_status) taxable_income

/-! ## Self-employment tax (`_calculate_self_employment_tax`) -/

/-- `_calculate_self_employment_tax(net_earnings)`: 92.35% of net earnings,
Social Security 12.4% capped at the 160200 wage base, Medicare 2.9%
uncapped, additional Medicare 0.9% above 200000. -/
def calculate_self_employment_tax (net_earnings : ℚ) : ℚ :=
  if net_earnings ≤ 0 then 0
  else
    let se_income := net_earnings * (9235/10000)
    let ss_tax := min se_income 160200 * (124/1000)
    let medicare_tax := se_income * (29/1000)
    let additional_medicare :=
      if 200000 < se_income then (se_income - 200000) * (9/1000) else 0
    ss_tax + medicare_tax + additional_medicare

/-! ## Entity tax strategies -/

/-- The `financial_data` dict produced by `_get_financial_projection`. -/
structure FinancialData where
  gross_income : ℚ
  total_expenses : ℚ
  net_income : ℚ
deriving DecidableEq, Repr

/-- Common shape of the dicts returned by the four `_calculate_*_tax`
variants.  Components a variant does not produce (e.g. `payroll_tax` for an
individual) are 0; the S-corp-only `reasonable_salary`/`distribution`
entries are recoverable from `net` and are not separate fields here. -/
structure TaxCalculationResult where
  gross_income : ℚ
  adjusted_gross_income : ℚ
  taxable_income : ℚ
  federal_tax : ℚ
  state_tax : ℚ
  self_employment_tax : ℚ
  payroll_tax : ℚ
  total_tax : ℚ
  effective_rate : ℚ
  marginal_rate : ℚ
deriving DecidableEq, Repr

/-- Python truthiness guard `state and state != 'TX'` on the state string. -/
def stateTaxable (state : String) : Prop :=
  ¬(state = "" ∨ state = "TX")

instance (state : String) : Decidable (stateTaxable state) := by
  unfold stateTaxable; infer_instance

/-- `_calculate_individual_tax(financial_data, filing_status, state)`. -/
def calculate_individual_tax (fd : FinancialData) (filing_status state : String) :
    TaxCalculationResult :=
  let adjusted_gross_income := fd.gross_income - fd.total_expenses
  let standard_deduction := standard_deductions_2024 filing_status
  let taxable_income := max 0 (adjusted_gross_income - standard_deduction)
  let federal_tax := calculate_federal_tax taxable_income filing_status
  let se_tax := calculate_self_employment_tax fd.net_income
  let state_tax := if stateTaxable state then taxable_income * (5/100) else 0
  let total_tax := federal_tax + se_tax + state_tax
  { gross_income := fd.gross_income
    adjusted_gross_income := adjusted_gross_income
    taxable_income := taxable_income
    federal_tax := federal_tax
    state_tax := state_tax
    self_employment_tax := se_tax
    payroll_tax := 0
    total_tax := total_tax
    effective_rate := if 0 < adjusted_gross_income then total_tax / adjusted_gross_income else 0
    marginal_rate := get_marginal_rate taxable_income filing_status }

/-- `_calculate_s_corp_tax(financial_data, state)`. -/
def calculate_s_corp_tax (fd : FinancialData) (state : String) : TaxCalculationResult :=
  let net_income := fd.net_income
  let reasonable_salary := min (net_income * (4/10)) 100000
  let payroll_tax := reasonable_salary * (153/1000)
  let federal_tax := calculate_federal_tax net_income "single"
  let state_tax := if stateTaxable state then net_income * (5/100) else 0
  let total_tax := federal_tax + payroll_tax + state_tax
  { gross_income := fd.gross_income
    adjusted_gross_income := net_income
    taxable_income := net_income
    federal_tax := federal_tax
    state_tax := state_tax
    self_employment_tax := 0
    payroll_tax := payroll_tax
    total_tax := total_tax
    effective_rate := if 0 < fd.gross_income then total_tax / fd.gross_income else 0
    marginal_rate := get_marginal_rate net_income "single" }

/-- `_calculate_corporate_tax(financial_data, state)`. -/
def calculate_corporate_tax (fd : FinancialData) (state : String) : TaxCalculationResult :=
  let taxable_income := fd.net_income
  let federal_tax := taxable_income * (21/100)
  let state_tax := if stateTaxable state then taxable_income * (6/100) else 0
  let total_tax := federal_tax + state_tax
  { gross_income := fd.gross_income
    adjusted_gross_income := taxable_income
    taxable_income := taxable_income
    federal_tax := federal_tax
    state_tax := state_tax
    self_employment_tax := 0
    payroll_tax := 0
    total_tax := total_tax
    effective_rate := if 0 < fd.gross_income then total_tax / fd.gross_income else 0
    marginal_rate := 21/100 }

/-- `_calculate_partnership_tax(financial_data, state)`. -/
def calculate_partnership_tax (fd : FinancialData) (state : String) : TaxCalculationResult :=
  let net_income := fd.net_income
  let federal_tax := calculate_federal_tax net_income "single"
  let se_tax := calculate_self_employment_tax net_income
  let state_tax := if stateTaxable state then net_income * (5/100) else 0
  let total_tax := federal_tax + se_tax + state_tax
  { gross_income := fd.gross_income
    adjusted_gross_income := net_income
    taxable_income := net_income
    federal_tax := federal_tax
    state_tax := state_tax
    self_employment_tax := se_tax
    payroll_tax := 0
    total_tax := total_tax
    effective_rate := if 0 < fd.gross_income then total_tax / fd.gross_income else 0
    marginal_rate := get_marginal_rate net_income "single" }

/-- The four supported entity-type tags of `calculate_tax_liability`. -/
inductive EntityType
  | sole_proprietorship
  | s_corp
  | c_corp
  | partnership
deriving DecidableEq, Repr

/-- The entity-type dispatch in `calculate_tax_liability` (individual
variants are always called with filing status `'single'`). -/
def calculate_tax_liability_dispatch (et : EntityType) (fd : FinancialData)
    (state : String) : TaxCalculationResult :=
  match et with
  | .sole_proprietorship => calculate_individual_tax fd "single" state
  | .s_corp => calculate_s_corp_tax fd state
  | .c_corp => calculate_corporate_tax fd state
  | .partnership => calculate_partnership_tax fd state

/-! ## Payroll (payroll_tools.py) -/

/-- A 2024 federal withholding bracket (`_load_payroll_tables`), with the
precomputed cumulative `base`. `max = none` stands for `float('inf')`. -/
structure WBracket where
  min : ℚ
  max : Option ℚ
  rate : ℚ
  base : ℚ
deriving DecidableEq, Repr

/-- 2024 withholding brackets, filing status `'single'`. -/
def withholding_single : List WBracket :=
  [⟨0, some 3325, 0, 0⟩,
   ⟨3325, some 4817, 10/100, 0⟩,
   ⟨4817, some 9817, 12/100, 1492/10⟩,
   ⟨9817, some 20817, 22/100, 7492/10⟩,
   ⟨20817, some 43375, 24/100, 31692/10⟩,
   ⟨43375, some 95375, 32/100, 858312/100⟩,
   ⟨95375, some 200000, 35/100, 2522312/100⟩,
   ⟨200000, none, 37/100, 6183562/100⟩]

/-- 2024 withholding brackets, filing status `'married'`. -/
def withholding_married : List WBracket :=
  [⟨0, some 8600, 0, 0⟩,
   ⟨8600, some 11600, 10/100, 0⟩,
   ⟨11600, some 21600, 12/100, 300⟩,
   ⟨21600, some 43600, 22/100, 1500⟩,
   ⟨43600, some 88600, 24/100, 6340⟩,
   ⟨88600, some 192600, 32/100, 17140⟩,
   ⟨192600, some 400000, 35/100, 50420⟩,
   ⟨400000, none, 37/100, 123010⟩]

/-- `self.federal_withholding_2024.get(filing_status, …['single'])`. -/
def withholdingBracketsFor (filing_status : String) : List WBracket :=
  if filing_status = "married" then withholding_married else withholding_single

/-- `self.standard_deduction_2024.get(filing_status, 14600)` in
`_calculate_federal_withholding`. -/
def payroll_standard_deduction (filing_status : String) : ℚ :=
  if filing_status = "single" then 14600
  else if filing_status = "married" then 29200
  else if filing_status = "head_of_household" then 21900
  else 14600

/-- The loop of `_calculate_federal_withholding`: `withholding` is
overwritten (not accumulated) with `base + portion*rate` at every bracket
the income reaches; `w` carries the current value. -/
def withholdingScan (taxable_income w : ℚ) : List WBracket → ℚ
  | [] => w
  | b :: rest =>
    if taxable_income ≤ b.min then w
    else withholdingScan taxable_income
      (b.base + (capO b.max taxable_income - b.min) * b.rate) rest

/-- `_calculate_federal_withholding(annual_gross, filing_status, allowances,
additional)`. -/
def calculate_federal_withholding (annual_gross : ℚ) (filing_status : String)
    (allowances : ℕ) (additional : ℚ) : ℚ :=
  let allowance_amount : ℚ := (allowances : ℚ) * 4300
  let taxable_income :=
    max 0 (annual_gross - allowance_amount - payroll_standard_deduction filing_status)
  withholdingScan taxable_income 0 (withholdingBracketsFor filing_status) + additional

/-- The per-employee input consumed by `_calculate_employee_payroll`
(after the employee-record lookup/creation has resolved each field). -/
structure EmployeePayInput where
  salary_type : String
  hours_worked : ℚ
  overtime_hours : ℚ
  hourly_rate : ℚ
  salary_amount : ℚ
  filing_status : String
  allowances : ℕ
  additional_withholding : ℚ
  other_deductions : ℚ
deriving DecidableEq, Repr

/-- The per-employee result dict of `_calculate_employee_payroll`. -/
structure PayrollLine where
  gross_pay : ℚ
  federal_withholding : ℚ
  state_withholding : ℚ
  social_security : ℚ
  medicare : ℚ
  additional_medicare : ℚ
  other_deductions : ℚ
  total_taxes : ℚ
  net_pay : ℚ
deriving DecidableEq, Repr

/-- `_calculate_employee_payroll`: gross pay (salary/26 or hourly with 1.5×
overtime), annualized federal withholding divided back by 26, FICA
components, flat 5% state withholding, and
`net_pay = gross_pay - total_taxes - other_deductions`. -/
def calculate_employee_payroll (e : EmployeePayInput) : PayrollLine :=
  let gross_pay :=
    if e.salary_type = "salary" then e.salary_amount / 26
    else e.hours_worked * e.hourly_rate + e.overtime_hours * e.hourly_rate * (3/2)
  let federal_withholding :=
    calculate_federal_withholding (gross_pay * 26) e.filing_status
      e.allowances e.additional_withholding / 26
  let social_security := min gross_pay (160200 / 26) * (62/1000)
  let medicare := gross_pay * (145/10000)
  let additional_medicare :=
    if 200000 < gross_pay * 26 then gross_pay * (9/1000) else 0
  let state_withholding := gross_pay * (5/100)
  let total_taxes :=
    federal_withholding + social_security + medicare + additional_medicare + state_withholding
  { gross_pay := gross_pay
    federal_withholding := federal_withholding
    state_withholding := state_withholding
    social_security := social_security
    medicare := medicare
    additional_medicare := additional_medicare
    other_deductions := e.other_deductions
    total_taxes := total_taxes
    net_pay := gross_pay - total_taxes - e.other_deductions }

/-! ## Transaction classifier (bookkeeping_tools.py) -/

/-- `l` starts with `n` (character lists). -/
def leadsWith : List Char → List Char → Bool
  | [], _ => true
  | _ :: _, [] => false
  | a :: as, b :: bs => a = b && leadsWith as bs

/-- `n` occurs as a contiguous substring of `l`. -/
def occursIn (n : List Char) : List Char → Bool
  | [] => leadsWith n []
  | c :: rest => leadsWith n (c :: rest) || occursIn n rest

/-- A pattern rule from `_load_categorization_rules`.  Every default
pattern is a case-insensitive alternation of literal substrings
(e.g. `r"(?i)gas|fuel|shell|exxon|bp"`), so the matcher is: some
alternative (stored lowercase) occurs in the lowercased description. -/
structure PatternRule where
  alternatives : List String
  category : String
  subcategory : String
deriving DecidableEq, Repr

/-- `re.search(rule['pattern'], description)` for the default patterns:
`(?i)` makes the search case-insensitive, modelled by lowercasing the
description's characters. -/
def patternMatches (description : String) (r : PatternRule) : Bool :=
  r.alternatives.any (fun k => occursIn k.data (description.data.map Char.toLower))

/-- An amount rule: either a `min_amount` or a `max_amount` bound. -/
inductive AmountRule
  | min_amount (bound : ℚ) (category subcategory : String)
  | max_amount (bound : ℚ) (category subcategory : String)
deriving DecidableEq, Repr

/-- An amount rule fires on `abs(amount)` exactly as in
`_categorize_transaction`. -/
def amountRuleFires (amount : ℚ) : AmountRule → Bool
  | .min_amount bound _ _ => bound ≤ |amount|
  | .max_amount bound _ _ => |amount| ≤ bound

/-- Result triple of an amount rule, with its confidence 0.7 (`min`) or
0.6 (`max`). -/
def amountRuleResult : AmountRule → String × String × ℚ
  | .min_amount _ c s => (c, s, 7/10)
  | .max_amount _ c s => (c, s, 6/10)

/-- The default `patterns` list of `_load_categorization_rules`, in
configured order. -/
def default_patterns : List PatternRule :=
  [⟨["amazon", "amzn"], "Office Supplies", "General"⟩,
   ⟨["gas", "fuel", "shell", "exxon", "bp"], "Vehicle Expenses", "Fuel"⟩,
   ⟨["office depot", "staples", "best buy"], "Office Supplies", "Equipment"⟩,
   ⟨["restaurant", "cafe", "food", "dining"], "Meals & Entertainment", "Business Meals"⟩,
   ⟨["hotel", "motel", "lodging", "airbnb"], "Travel", "Lodging"⟩,
   ⟨["airline", "flight", "airport"], "Travel", "Airfare"⟩,
   ⟨["internet", "phone", "verizon", "att", "comcast"], "Utilities", "Communications"⟩,
   ⟨["electric", "power", "gas company", "water"], "Utilities", "Basic Utilities"⟩,
   ⟨["insurance"], "Insurance", "General"⟩,
   ⟨["bank fee", "service charge"], "Bank Charges", "Fees"⟩,
   ⟨["payroll", "salary", "wages"], "Payroll", "Wages"⟩,
   ⟨["rent", "lease"], "Rent", "Office Rent"⟩,
   ⟨["legal", "attorney", "law"], "Professional Services", "Legal"⟩,
   ⟨["accounting", "bookkeeping", "cpa"], "Professional Services", "Accounting"⟩,
   ⟨["marketing", "advertising", "google ads"], "Marketing", "Advertising"⟩,
   ⟨["software", "subscription", "saas"], "Software", "Subscriptions"⟩]

/-- The default `amount_rules` list. -/
def default_amount_rules : List AmountRule :=
  [.min_amount 5000 "Equipment" "Major Equipment",
   .max_amount 25 "Office Supplies" "Miscellaneous"]

/-- `_categorize_transaction(description, amount)` over explicit rule
lists: first matching pattern rule (confidence 0.9), else first firing
amount rule, else the sign-based default (confidence 0.3). -/
def categorize_transaction (patterns : List PatternRule) (amount_rules : List AmountRule)
    (description : String) (amount : ℚ) : String × String × ℚ :=
  match patterns.find? (patternMatches description) with
  | some r => (r.category, r.subcategory, 9/10)
  | none =>
    match amount_rules.find? (amountRuleFires amount) with
    | some r => amountRuleResult r
    | none =>
      if 0 < amount then ("Income", "Unclassified Income", 3/10)
      else ("Expenses", "Unclassified Expenses", 3/10)

/-! ## Sales tax (sales_tax_tools.py) -/

/-- The columns of a `nexus_tracking` row that `_check_nexus_implications`
reads or writes.  Under `SELECT *` the row is indexed `id(0), client_id(1),
state(2), nexus_type(3), threshold_amount(4), threshold_transactions(5),
current_sales(6), current_transactions(7), …, status(10), …`: the update
branch reads index 7, the `current_transactions` column — which the INSERT
omits (so it keeps its `DEFAULT 0`) and the UPDATE never writes.  Threshold
columns are stored but re-read from configuration, not the row. -/
structure NexusRecord where
  current_sales : ℚ
  current_transactions : ℚ
  status : String
deriving DecidableEq, Repr

/-- The two alert shapes `_check_nexus_implications` can append. -/
inductive NexusAlert
  | nexus_threshold_exceeded
  | nexus_threshold_warning
deriving DecidableEq, Repr

/-- One state's iteration of `_check_nexus_implications`, for a single
`(client_id, state)` key: `threshold` is `self.nexus_thresholds[state]['sales']`
(`none` when the state has no sales tax, in which case the loop `continue`s);
`record` is the fetched `nexus_tracking` row (`none` if absent, in which case
a fresh row with `current_sales = gross_sales`, `current_transactions` at its
`DEFAULT 0`, and status `'monitoring'` is inserted and no alert check runs).
Otherwise `new_sales = nexus_record[7] + calc['gross_sales']`: index 7 is the
`current_transactions` column (despite the line's `# current_sales column`
comment), so the stored cumulative at index 6 is NOT read; `new_sales` is
written to `current_sales` and compared against the threshold and its 80%
warning level. -/
def check_nexus_implications (threshold : Option ℚ) (record : Option NexusRecord)
    (gross_sales : ℚ) : Option NexusRecord × List NexusAlert :=
  match threshold with
  | none => (record, [])
  | some t =>
    match record with
    | none => (some ⟨gross_sales, 0, "monitoring"⟩, [])
    | some r =>
      let new_sales := r.current_transactions + gross_sales
      let alerts :=
        if t ≤ new_sales then [NexusAlert.nexus_threshold_exceeded]
        else if t * (8/10) ≤ new_sales then [NexusAlert.nexus_threshold_warning]
        else []
      (some ⟨new_sales, r.current_transactions, r.status⟩, alerts)

/-- Runs a sequence of per-period `gross_sales` figures through
`check_nexus_implications` for a fixed client/state, threading the
persisted row. -/
def runNexusCalls (threshold : Option ℚ) (record : Option NexusRecord) :
    List ℚ → Option NexusRecord
  | [] => record
  | g :: gs => runNexusCalls threshold (check_nexus_implications threshold record g).1 gs

/-- The persisted cumulative sales figure seen by `nexus_analysis` and the
next `_check_nexus_implications` call: the row's `current_sales`, or 0 when
no row exists yet. -/
def nexusCumulative : Option NexusRecord → ℚ
  | none => 0
  | some r => r.current_sales

/-- A calendar date as produced by `_calculate_due_date` (year, month, day). -/
structure DueDate where
  year : ℤ
  month : ℕ
  day : ℕ
deriving DecidableEq, Repr

/-- `next(m for m in [3, 6, 9, 12] if m >= month)`; total via `getD`, which
is only reached for `month > 12` (where Python would raise). -/
def quarterEnd (month : ℕ) : ℕ :=
  (([3, 6, 9, 12].find? (fun m => month ≤ m)).getD 12)

/-- `_calculate_due_date(period, frequency)` with the period already parsed
as `(year, month)`. -/
def calculate_due_date (year : ℤ) (month : ℕ) (frequency : String) : DueDate :=
  if frequency = "monthly" then
    if month = 12 then ⟨year + 1, 1, 20⟩ else ⟨year, month + 1, 20⟩
  else if frequency = "quarterly" then
    let q := quarterEnd month
    if q = 12 then ⟨year + 1, 1, 20⟩ else ⟨year, q + 1, 20⟩
  else ⟨year + 1, 1, 31⟩

/-- A filing requirement entry as appended by `_generate_filing_requirements`. -/
structure FilingRequirement where
  filing_frequency : String
  due_date : DueDate
deriving DecidableEq, Repr

/-- One calculation's contribution to `_generate_filing_requirements`:
a requirement only when `tax_due > 0`, with frequency by the 20000/1200
thresholds and the matching due date. -/
def generate_filing_requirement (tax_due : ℚ) (year : ℤ) (month : ℕ) :
    Option FilingRequirement :=
  if 0 < tax_due then
    if 20000 < tax_due then some ⟨"monthly", calculate_due_date year month "monthly"⟩
    else if 1200 < tax_due then some ⟨"quarterly", calculate_due_date year month "quarterly"⟩
    else some ⟨"annually", calculate_due_date year month "annually"⟩
  else none

/-! ## Helper lemmas for the bracket calculator -/

/-- With nonnegative rates and `min ≤ max` per bracket, the bracket loop
never produces a negative tax. -/
theorem federalTaxLoop_nonneg (brs : List TBracket)
    (hok : ∀ b ∈ brs, 0 ≤ b.rate ∧ ∀ m, b.max = some m → b.min ≤ m)
    (inc : ℚ) : 0 ≤ federalTaxLoop brs inc := by
  induction brs with
  | nil => simp [federalTaxLoop]
  | cons b rest ih =>
    have hb := hok b (by simp)
    have hrest : ∀ x ∈ rest, 0 ≤ x.rate ∧ ∀ m, x.max = some m → x.min ≤ m :=
      fun x hx => hok x (by simp [hx])
    by_cases h : inc ≤ b.min
    · simp [federalTaxLoop, h]
    · have hcap : b.min ≤ capO b.max inc := by
        cases hm : b.max with
        | none => simpa [capO] using le_of_not_le h
        | some m =>
          have := hb.2 m hm
          simp only [capO]
          exact le_min (le_of_not_le h) this
      have hterm : 0 ≤ (capO b.max inc - b.min) * b.rate :=
        mul_nonneg (by linarith) hb.1
      simp only [federalTaxLoop, if_neg h]
      have := ih hrest
      linarith

/-- The bracket loop is monotone in income for tables with nonnegative
rates and `min ≤ max` per bracket. -/
theorem federalTaxLoop_mono (brs : List TBracket)
    (hok : ∀ b ∈ brs, 0 ≤ b.rate ∧ ∀ m, b.max = some m → b.min ≤ m)
    (a b : ℚ) (hab : a ≤ b) :
    federalTaxLoop brs a ≤ federalTaxLoop brs b := by
  induction brs with
  | nil => simp [federalTaxLoop]
  | cons x rest ih =>
    have hx := hok x (by simp)
    have hrest : ∀ y ∈ rest, 0 ≤ y.rate ∧ ∀ m, y.max = some m → y.min ≤ m :=
      fun y hy => hok y (by simp [hy])
    by_cases ha : a ≤ x.min
    · by_cases hbx : b ≤ x.min
      · simp [federalTaxLoop, ha, hbx]
      · simp only [federalTaxLoop, if_pos ha, if_neg hbx]
        exact federalTaxLoop_nonneg (x :: rest) hok b |>.trans_eq
          (by simp [federalTaxLoop, hbx])
    · have hbx : ¬ b ≤ x.min := fun hc => ha (hab.trans hc)
      simp only [federalTaxLoop, if_neg ha, if_neg hbx]
      have hcap : capO x.max a ≤ capO x.max b := by
        cases x.max with
        | none => simpa [capO] using hab
        | some m => simp only [capO]; exact min_le_min hab le_rfl
      have : (capO x.max a - x.min) * x.rate ≤ (capO x.max b - x.min) * x.rate :=
        mul_le_mul_of_nonneg_right (by linarith) hx.1
      have := ih hrest
      linarith

/-- If the income is at or below every bracket floor, the strict-break
variant contributes nothing. -/
theorem federalTaxLoopUpper_eq_zero (brs : List TBracket)
    (hok : ∀ b ∈ brs, 0 ≤ b.rate ∧ ∀ m, b.max = some m → b.min ≤ m)
    (inc : ℚ) (hlo : ∀ b ∈ brs, inc ≤ b.min) :
    federalTaxLoopUpper brs inc = 0 := by
  induction brs with
  | nil => simp [federalTaxLoopUpper]
  | cons b rest ih =>
    have hb := hok b (by simp)
    have hble := hlo b (by simp)
    by_cases h : inc < b.min
    · simp [federalTaxLoopUpper, h]
    · have heq : inc = b.min := le_antisymm hble (le_of_not_lt h)
      have hcap : capO b.max inc = b.min := by
        cases hm : b.max with
        | none => simp [capO, heq]
        | some m =>
          have := hb.2 m hm
          simp only [capO]
          rw [heq]
          exact min_eq_left this
      simp only [federalTaxLoopUpper, if_neg h, hcap, sub_self, zero_mul, zero_add]
      exact ih (fun x hx => hok x (by simp [hx])) (fun x hx => hlo x (by simp [hx]))

/-- On a table whose bracket floors are sorted, the code's break test
(`income ≤ min`, boundary income in the lower bracket) and the strict test
(`income < min`, boundary income in the upper bracket) produce the same
tax: the bracket arithmetic is continuous at every bracket boundary. -/
theorem federalTaxLoop_eq_upper (brs : List TBracket)
    (hok : ∀ b ∈ brs, 0 ≤ b.rate ∧ ∀ m, b.max = some m → b.min ≤ m)
    (hsort : List.Pairwise (fun x y => x.min ≤ y.min) brs)
    (inc : ℚ) : federalTaxLoop brs inc = federalTaxLoopUpper brs inc := by
  induction brs with
  | nil => simp [federalTaxLoop, federalTaxLoopUpper]
  | cons b rest ih =>
    have hb := hok b (by simp)
    have hrest : ∀ x ∈ rest, 0 ≤ x.rate ∧ ∀ m, x.max = some m → x.min ≤ m :=
      fun x hx => hok x (by simp [hx])
    rcases List.pairwise_cons.mp hsort with ⟨hhead, htail⟩
    by_cases h : inc ≤ b.min
    · simp only [federalTaxLoop, if_pos h]
      by_cases h' : inc < b.min
      · simp [federalTaxLoopUpper, h']
      · have heq : inc = b.min := le_antisymm h (le_of_not_lt h')
        have hcap : capO b.max inc = b.min := by
          cases hm : b.max with
          | none => simp [capO, heq]
          | some m =>
            have := hb.2 m hm
            simp only [capO]
            rw [heq]
            exact min_eq_left this
        have htl : federalTaxLoopUpper rest inc = 0 :=
          federalTaxLoopUpper_eq_zero rest hrest inc
            (fun x hx => heq ▸ hhead x hx)
        simp [federalTaxLoopUpper, if_neg h', hcap, htl]
    · have h' : ¬ inc < b.min := fun hc => h (le_of_lt hc)
      simp only [federalTaxLoop, if_neg h, federalTaxLoopUpper, if_neg h']
      rw [ih hrest htail]

/-- Claim C6: for all taxable incomes and any valid bracket table
(nonnegative rates, `min ≤ max` in each bracket, bracket floors sorted
ascending), the bracket-loop tax `federalTaxLoop` of
`_calculate_federal_tax` is monotonically non-decreasing in income, and it
is continuous at bracket boundaries: the tax is the same whether an income
exactly at a boundary is attributed to the lower bracket (the code's
`income ≤ min` break, i.e. the lower bracket's full contribution) or to the
upper bracket (the strict `income < min` break, i.e. entering the upper
bracket at its base with zero width). -/
theorem c6_computeTax_monotone_and_boundary_continuous (brs : List TBracket)
    (hok : ∀ b ∈ brs, 0 ≤ b.rate ∧ ∀ m, b.max = some m → b.min ≤ m)
    (hsort : List.Pairwise (fun x y => x.min ≤ y.min) brs)
    (a b : ℚ) (hab : a ≤ b) :
    federalTaxLoop brs a ≤ federalTaxLoop brs b ∧
    federalTaxLoop brs a = federalTaxLoopUpper brs a := by
  exact ⟨federalTaxLoop_mono brs hok a b hab, federalTaxLoop_eq_upper brs hok hsort a⟩

/-- Witness for C6 on the concrete 2024 single-filer table, across the
47150 bracket boundary. -/
theorem c6_witness :
    federalTaxLoop federal_brackets_single 47150 ≤ federalTaxLoop federal_brackets_single 47151 ∧
    federalTaxLoop federal_brackets_single 47150 = federalTaxLoopUpper federal_brackets_single 47150 := by
  exact c6_computeTax_monotone_and_boundary_continuous federal_brackets_single
    (by intro b hb; fin_cases hb <;> refine ⟨by norm_num, ?_⟩ <;> rintro m hm <;>
      first
      | (injection hm with h; rw [← h]; norm_num)
      | exact absurd hm (by simp))
    (by norm_num [federal_brackets_single, List.pairwise_cons])
    47150 47151 (by norm_num)

/-- When the income lies strictly above the finite `max` of every bracket
but the last, `_get_marginal_rate` returns the last bracket's rate (either
because the last bracket's test succeeds or through the `brackets[-1]`
fallback). -/
theorem marginalRateLoop_last (brs : List TBracket) (inc : ℚ)
    (h : ∀ b ∈ brs.dropLast, ∃ m, b.max = some m ∧ m < inc) :
    marginalRateLoop brs inc = ((brs.getLast?).map TBracket.rate).getD 0 := by
  induction brs with
  | nil => simp [marginalRateLoop]
  | cons b rest ih =>
    cases rest with
    | nil =>
      simp only [marginalRateLoop, List.find?]
      cases hcond : (match b.max with
          | none => true
          | some m => decide (inc ≤ m) : Bool) <;> simp [List.getLast?]
    | cons r rs =>
      have hb : ∃ m, b.max = some m ∧ m < inc := by
        apply h b
        simp [List.dropLast]
      rcases hb with ⟨m, hm, hlt⟩
      have hcond : (match b.max with
          | none => true
          | some mm => decide (inc ≤ mm) : Bool) = false := by
        rw [hm]; simp [not_le.mpr hlt]
      have htail : ∀ x ∈ (r :: rs).dropLast, ∃ mm, x.max = some mm ∧ mm < inc := by
        intro x hx
        apply h x
        simp only [List.dropLast]
        exact List.mem_cons_of_mem b hx
      have hlast : (b :: r :: rs).getLast? = (r :: rs).getLast? := by
        simp [List.getLast?_cons_cons]
      simp only [marginalRateLoop, List.find?, hcond] at *
      rw [hlast]
      exact ih htail

/-- Claim C4 (amended): `_get_marginal_rate` resolves an income exactly at
a bracket boundary to the LOWER bracket (its test is `income ≤ max`): for
every bracket of the 2024 tables with a finite `max`, the marginal rate at
exactly that `max` is that same bracket's rate, not the next one's; and for
incomes above every finite `max`, it returns the last bracket's rate. -/
theorem c4_marginal_rate_boundary_and_last :
    (∀ b ∈ federal_brackets_single, ∀ m : ℚ, b.max = some m →
        marginalRateLoop federal_brackets_single m = b.rate) ∧
    (∀ b ∈ federal_brackets_married_joint, ∀ m : ℚ, b.max = some m →
        marginalRateLoop federal_brackets_married_joint m = b.rate) ∧
    (∀ (brs : List TBracket) (inc : ℚ),
        (∀ b ∈ brs.dropLast, ∃ m, b.max = some m ∧ m < inc) →
        marginalRateLoop brs inc = ((brs.getLast?).map TBracket.rate).getD 0) := by
  refine ⟨?_, ?_, fun brs inc h => marginalRateLoop_last brs inc h⟩ <;>
    (intro b hb; fin_cases hb <;> rintro m hm <;>
      first
      | (injection hm with h; rw [← h];
         norm_num [marginalRateLoop, List.find?, federal_brackets_single,
           federal_brackets_married_joint])
      | exact absurd hm (by simp))

/-- Witness for C4's amended theorem: marginal rate at the 47150 single
boundary is the 12% lower bracket's rate, and an income above every finite
max of a two-bracket table gets the last rate. -/
theorem c4_witness :
    marginalRateLoop federal_brackets_single 47150 = 12/100 ∧
    marginalRateLoop [⟨0, some 5, 1/10⟩, ⟨5, none, 2/10⟩] 7 = 2/10 := by
  constructor
  · exact c4_marginal_rate_boundary_and_last.1 ⟨11600, some 47150, 12/100⟩
      (by norm_num [federal_brackets_single]) 47150 rfl
  · have h := c4_marginal_rate_boundary_and_last.2.2
      [⟨0, some 5, 1/10⟩, ⟨5, none, 2/10⟩] 7
      (by rintro b hb; simp only [List.dropLast] at hb; simp at hb;
          exact ⟨5, by rw [hb], by norm_num⟩)
    simpa using h

/-- Claim C4 (counterexample): an income of 11600 is exactly the boundary
between the 10% bracket `[0, 11600)` and the 12% bracket `[11600, 47150)`
of the single table; the claim says the boundary income belongs to the
upper bracket (so marginal rate 12%), but the code returns the lower
bracket's 10%. -/
theorem c4_counterexample :
    get_marginal_rate 11600 "single" = 10/100 ∧
    TBracket.mk 11600 (some 47150) (12/100) ∈ federal_brackets_single ∧
    (10 : ℚ)/100 ≠ 12/100 := by
  refine ⟨?_, by norm_num [federal_brackets_single], by norm_num⟩
  norm_num [get_marginal_rate, marginalRateLoop, bracketsFor, federal_brackets_single, List.find?]

/-- Claim C2 (amended): only the sole-proprietor variant computes
`effective_rate = total_tax / adjusted_gross_income` (0 when AGI ≤ 0); the
S-corp, C-corp and partnership variants divide by `gross_income` instead
(0 when gross income ≤ 0), even though their returned
`adjusted_gross_income` is the net income. -/
theorem c2_effective_rate_denominators (fd : FinancialData) (state : String) :
    ((calculate_individual_tax fd "single" state).effective_rate =
      if 0 < (calculate_individual_tax fd "single" state).adjusted_gross_income then
        (calculate_individual_tax fd "single" state).total_tax /
          (calculate_individual_tax fd "single" state).adjusted_gross_income
      else 0) ∧
    ((calculate_s_corp_tax fd state).effective_rate =
      if 0 < fd.gross_income then
        (calculate_s_corp_tax fd state).total_tax / fd.gross_income
      else 0) ∧
    ((calculate_corporate_tax fd state).effective_rate =
      if 0 < fd.gross_income then
        (calculate_corporate_tax fd state).total_tax / fd.gross_income
      else 0) ∧
    ((calculate_partnership_tax fd state).effective_rate =
      if 0 < fd.gross_income then
        (calculate_partnership_tax fd state).total_tax / fd.gross_income
      else 0) ∧
    (calculate_s_corp_tax fd state).adjusted_gross_income = fd.net_income ∧
    (calculate_partnership_tax fd state).adjusted_gross_income = fd.net_income := by
  refine ⟨?_, ?_, ?_, ?_, ?_, ?_⟩ <;>
    simp [calculate_individual_tax, calculate_s_corp_tax, calculate_corporate_tax,
      calculate_partnership_tax]

/-- Claim C2 (counterexample): an S-corp with gross income 200000,
expenses 100000 (so AGI = net income = 100000) in Texas has
`effective_rate = total_tax / 200000`, not `total_tax / AGI`: the claimed
identity fails because the denominator is gross income. -/
theorem c2_counterexample :
    (calculate_s_corp_tax ⟨200000, 100000, 100000⟩ "TX").effective_rate ≠
      (calculate_s_corp_tax ⟨200000, 100000, 100000⟩ "TX").total_tax /
        (calculate_s_corp_tax ⟨200000, 100000, 100000⟩ "TX").adjusted_gross_income := by
  have h1 : (calculate_s_corp_tax ⟨200000, 100000, 100000⟩ "TX").effective_rate
      = 23173/200000 := by
    norm_num [calculate_s_corp_tax, calculate_federal_tax, bracketsFor,
      federal_brackets_single, federalTaxLoop, capO, stateTaxable]
  have h2 : (calculate_s_corp_tax ⟨200000, 100000, 100000⟩ "TX").total_tax /
      (calculate_s_corp_tax ⟨200000, 100000, 100000⟩ "TX").adjusted_gross_income
      = 23173/100000 := by
    norm_num [calculate_s_corp_tax, calculate_federal_tax, bracketsFor,
      federal_brackets_single, federalTaxLoop, capO, stateTaxable]
  rw [h1, h2]
  norm_num

/-- Witness for C2's amended theorem at the concrete S-corp input. -/
theorem c2_witness :
    (calculate_s_corp_tax ⟨200000, 100000, 100000⟩ "TX").effective_rate =
      if (0:ℚ) < 200000 then
        (calculate_s_corp_tax ⟨200000, 100000, 100000⟩ "TX").total_tax / 200000
      else 0 :=
  (c2_effective_rate_denominators ⟨200000, 100000, 100000⟩ "TX").2.1

/-- Claim C3 (amended): every payroll line satisfies
`net_pay = gross_pay − (federal + state + social security + medicare +
additional medicare) − other deductions`, but net pay is NOT prevented
from going negative: the computed (possibly negative) figure is returned
and stored as is — e.g. a 10-hour, 10-dollar-per-hour employee with 200 in
other deductions nets −112.65. -/
theorem c3_net_pay_equation_and_negative (e : EmployeePayInput) :
    ((calculate_employee_payroll e).net_pay =
      (calculate_employee_payroll e).gross_pay -
        ((calculate_employee_payroll e).federal_withholding +
         (calculate_employee_payroll e).state_withholding +
         (calculate_employee_payroll e).social_security +
         (calculate_employee_payroll e).medicare +
         (calculate_employee_payroll e).additional_medicare) -
        (calculate_employee_payroll e).other_deductions) ∧
    (calculate_employee_payroll ⟨"hourly", 10, 0, 10, 0, "single", 0, 0, 200⟩).net_pay
      = -2253/20 := by
  constructor
  · simp only [calculate_employee_payroll]
    ring
  · simp [calculate_employee_payroll, calculate_federal_withholding,
      payroll_standard_deduction, withholdingBracketsFor, withholding_single,
      withholdingScan, capO]
    norm_num

/-- Witness for C3's amended theorem at a concrete salaried employee. -/
theorem c3_witness :
    (calculate_employee_payroll ⟨"salary", 0, 0, 0, 52000, "married", 1, 10, 50⟩).net_pay =
      (calculate_employee_payroll ⟨"salary", 0, 0, 0, 52000, "married", 1, 10, 50⟩).gross_pay -
        ((calculate_employee_payroll ⟨"salary", 0, 0, 0, 52000, "married", 1, 10, 50⟩).federal_withholding +
         (calculate_employee_payroll ⟨"salary", 0, 0, 0, 52000, "married", 1, 10, 50⟩).state_withholding +
         (calculate_employee_payroll ⟨"salary", 0, 0, 0, 52000, "married", 1, 10, 50⟩).social_security +
         (calculate_employee_payroll ⟨"salary", 0, 0, 0, 52000, "married", 1, 10, 50⟩).medicare +
         (calculate_employee_payroll ⟨"salary", 0, 0, 0, 52000, "married", 1, 10, 50⟩).additional_medicare) -
        (calculate_employee_payroll ⟨"salary", 0, 0, 0, 52000, "married", 1, 10, 50⟩).other_deductions :=
  (c3_net_pay_equation_and_negative ⟨"salary", 0, 0, 0, 52000, "married", 1, 10, 50⟩).1

/-- Claim C3 (counterexample): a concrete payroll line with a negative net
pay (gross 100, other deductions 200), refuting `netPay` is never negative. -/
theorem c3_counterexample :
    (calculate_employee_payroll ⟨"hourly", 10, 0, 10, 0, "single", 0, 0, 200⟩).net_pay < 0 := by
  have h : (calculate_employee_payroll ⟨"hourly", 10, 0, 10, 0, "single", 0, 0, 200⟩).net_pay
      = -2253/20 := by
    simp [calculate_employee_payroll, calculate_federal_withholding,
      payroll_standard_deduction, withholdingBracketsFor, withholding_single,
      withholdingScan, capO]
    norm_num
  rw [h]; norm_num

/-- Claim C5 (amended): neither `_calculate_federal_tax` nor
`_calculate_federal_withholding` performs input validation. A non-positive
taxable income silently yields a computed tax of 0; an unrecognized filing
status silently falls back to the single-filer bracket table (and single
standard deduction); and a non-positive annualized gross yields a
withholding equal to just the additional flat amount.  No `InvalidInput`
error path exists. -/
theorem c5_no_validation_silent_defaults (ti : ℚ) (status : String)
    (hti : ti ≤ 0) :
    calculate_federal_tax ti status = 0 ∧
    (status ≠ "married_joint" → bracketsFor status = federal_brackets_single) ∧
    (status ≠ "single" → status ≠ "married_joint" → status ≠ "married_separate" →
      status ≠ "head_of_household" → standard_deductions_2024 status = 14600) ∧
    (status ≠ "married" → withholdingBracketsFor status = withholding_single) ∧
    (status ≠ "single" → status ≠ "married" → status ≠ "head_of_household" →
      payroll_standard_deduction status = 14600) ∧
    (∀ (allowances : ℕ) (additional : ℚ), ∀ ag ≤ (0:ℚ),
      calculate_federal_withholding ag status allowances additional = additional) := by
  refine ⟨?_, ?_, ?_, ?_, ?_, ?_⟩
  · unfold calculate_federal_tax bracketsFor
    split
    · simp [federalTaxLoop, federal_brackets_married_joint, hti]
    · simp [federalTaxLoop, federal_brackets_single, hti]
  · intro h; simp [bracketsFor, h]
  · intro h1 h2 h3 h4; simp [standard_deductions_2024, h1, h2, h3, h4]
  · intro h; simp [withholdingBracketsFor, h]
  · intro h1 h2 h3; simp [payroll_standard_deduction, h1, h2, h3]
  · intro allowances additional ag hag
    have hsd : (14600:ℚ) ≤ payroll_standard_deduction status := by
      unfold payroll_standard_deduction
      split <;> try split <;> try split
      all_goals norm_num
    have hallow : (0:ℚ) ≤ (allowances : ℚ) * 4300 := by positivity
    have htax : max 0 (ag - (allowances : ℚ) * 4300 - payroll_standard_deduction status)
        = 0 := by
      apply max_eq_left
      linarith
    unfold calculate_federal_withholding
    simp only []
    rw [htax]
    unfold withholdingBracketsFor
    split
    · simp [withholdingScan, withholding_married]
    · simp [withholdingScan, withholding_single]

/-- Claim C5 (counterexample): a negative taxable income yields a computed
federal tax of 0 (not an error), and an unknown filing status produces
exactly the single-filer results in both the tax and the withholding
calculators — the inputs the claim says must raise `InvalidInput` are
silently defaulted. -/
theorem c5_counterexample :
    calculate_federal_tax (-1000) "single" = 0 ∧
    calculate_federal_tax 50000 "no_such_status" = calculate_federal_tax 50000 "single" ∧
    calculate_federal_withholding 80000 "no_such_status" 0 0 =
      calculate_federal_withholding 80000 "single" 0 0 := by
  refine ⟨?_, ?_, ?_⟩
  · norm_num [calculate_federal_tax, bracketsFor, federal_brackets_single, federalTaxLoop]
  · simp [calculate_federal_tax, bracketsFor]
  · simp [calculate_federal_withholding, withholdingBracketsFor, payroll_standard_deduction]

/-- Witness for C5's amended theorem at taxable income −1000 and filing
status `'no_such_status'`. -/
theorem c5_witness :
    calculate_federal_tax (-1000) "no_such_status" = 0 ∧
    bracketsFor "no_such_status" = federal_brackets_single ∧
    calculate_federal_withholding (-500) "no_such_status" 2 77 = 77 := by
  have h := c5_no_validation_silent_defaults (-1000) "no_such_status" (by norm_num)
  exact ⟨h.1, h.2.1 (by decide), h.2.2.2.2.2 2 77 (-500) (by norm_num)⟩

/-- A single `_check_nexus_implications` step preserves the invariant that
the stored status string is `'monitoring'` and the `current_transactions`
column is 0: rows are inserted with status `'monitoring'` and the column at
its `DEFAULT 0`, and the UPDATE writes neither. -/
theorem check_nexus_step_invariant (thr : Option ℚ) (r : Option NexusRecord) (g : ℚ)
    (hr : ∀ x : NexusRecord, r = some x →
      x.status = "monitoring" ∧ x.current_transactions = 0)
    (r' : NexusRecord) (h : (check_nexus_implications thr r g).1 = some r') :
    r'.status = "monitoring" ∧ r'.current_transactions = 0 := by
  cases thr with
  | none => exact hr r' (by simpa [check_nexus_implications] using h)
  | some t =>
    cases r with
    | none =>
      simp only [check_nexus_implications, Option.some.injEq] at h
      rw [← h]
      exact ⟨rfl, rfl⟩
    | some rec =>
      simp only [check_nexus_implications, Option.some.injEq] at h
      rw [← h]
      exact ⟨(hr rec rfl).1, (hr rec rfl).2⟩

/-- Claim C1 (code bug): evaluated on the spec's own example (threshold
100000, sales 60000 then 45000 for the same client and state), the code —
which at line 356 reads `nexus_record[7]`, the never-written
`current_transactions` column (always 0), despite that line's own
`# current_sales column` comment — REPLACES the stored cumulative instead
of accumulating: the second call computes `new_sales = 0 + 45000`, stores
45000 rather than 105000, and emits no alert where the claim (and the
spec's example) requires exactly one `exceeded` alert. -/
theorem c1_code_bug_replaced_cumulative :
    check_nexus_implications (some 100000) none 60000 =
      (some ⟨60000, 0, "monitoring"⟩, []) ∧
    check_nexus_implications (some 100000) (some ⟨60000, 0, "monitoring"⟩) 45000 =
      (some ⟨45000, 0, "monitoring"⟩, []) ∧
    (100000:ℚ) ≤ 60000 + 45000 := by
  refine ⟨rfl, ?_, by norm_num⟩
  norm_num [check_nexus_implications]

/-- Claim C8 (code bug): because line 356 reads the always-zero
`current_transactions` column, recording 150000 and then a further
nonnegative 20000 drops the persisted `current_sales` from 150000 to
20000 — the cumulative is not monotone, and the exceeded condition
(150000 ≥ 100000) reverts to below-threshold, contrary to the claim. -/
theorem c8_code_bug_not_monotone :
    runNexusCalls (some 100000) none [150000] = some ⟨150000, 0, "monitoring"⟩ ∧
    runNexusCalls (some 100000) none [150000, 20000] = some ⟨20000, 0, "monitoring"⟩ ∧
    ¬ (nexusCumulative (runNexusCalls (some 100000) none [150000]) ≤
        nexusCumulative (runNexusCalls (some 100000) none [150000, 20000])) ∧
    (100000:ℚ) ≤ nexusCumulative (runNexusCalls (some 100000) none [150000]) := by
  refine ⟨rfl, ?_, ?_, ?_⟩
  · norm_num [runNexusCalls, check_nexus_implications]
  · norm_num [runNexusCalls, check_nexus_implications, nexusCumulative]
  · norm_num [runNexusCalls, check_nexus_implications, nexusCumulative]

/-- Claim C10 (amended): the stored nexus-tracking `status` stays
`'monitoring'` after any call history — rows are created with that status
and the UPDATE writes only `current_sales`/`last_updated` — and every row
the tracker creates keeps `current_transactions = 0`; consequently, since
line 356 reads that always-zero column, the alert emitted on a subsequent
call depends ONLY on the current period amount: an `exceeded` alert fires
exactly when the period amount itself reaches the threshold, so a
cumulative that has crossed the threshold does NOT produce fresh `exceeded`
alerts on later smaller recordings. -/
theorem c10_status_monitoring_alert_per_period (thr : Option ℚ) (gs : List ℚ)
    (r' : NexusRecord) (hrun : runNexusCalls thr none gs = some r') :
    (r'.status = "monitoring" ∧ r'.current_transactions = 0) ∧
    (∀ (t g : ℚ) (r : NexusRecord), r.current_transactions = 0 →
      ((check_nexus_implications (some t) (some r) g).2 =
          [NexusAlert.nexus_threshold_exceeded] ↔ t ≤ g)) := by
  constructor
  · have main : ∀ (gs : List ℚ) (s : Option NexusRecord),
        (∀ x : NexusRecord, s = some x →
          x.status = "monitoring" ∧ x.current_transactions = 0) →
        ∀ y : NexusRecord, runNexusCalls thr s gs = some y →
          y.status = "monitoring" ∧ y.current_transactions = 0 := by
      intro gs
      induction gs with
      | nil =>
        intro s hs y hy
        exact hs y (by simpa [runNexusCalls] using hy)
      | cons g gs ih =>
        intro s hs y hy
        simp only [runNexusCalls] at hy
        refine ih (check_nexus_implications thr s g).1 ?_ y hy
        exact fun x hx => check_nexus_step_invariant thr s g hs x hx
    exact main gs none (by intro x hx; cases hx) r' hrun
  · intro t g r hct
    simp only [check_nexus_implications, hct, zero_add]
    constructor
    · intro halert
      by_contra hlt
      rw [if_neg hlt] at halert
      by_cases hw : t * (8/10) ≤ g
      · rw [if_pos hw] at halert
        exact absurd halert (by simp)
      · rw [if_neg hw] at halert
        exact absurd halert (by simp)
    · intro hle
      rw [if_pos hle]

/-- Witness for C10's amended theorem: after the 60000/45000 history the
stored row still reads `'monitoring'` with zero `current_transactions`,
and a record already at 150000 alerts `exceeded` on a later call exactly
because the new period amount 120000 itself reaches the 100000 threshold. -/
theorem c10_witness :
    ((⟨45000, 0, "monitoring"⟩ : NexusRecord).status = "monitoring" ∧
      (⟨45000, 0, "monitoring"⟩ : NexusRecord).current_transactions = 0) ∧
    (check_nexus_implications (some 100000) (some ⟨150000, 0, "monitoring"⟩) 120000).2 =
      [NexusAlert.nexus_threshold_exceeded] := by
  have h := c10_status_monitoring_alert_per_period (some 100000) [60000, 45000]
    ⟨45000, 0, "monitoring"⟩ (by norm_num [runNexusCalls, check_nexus_implications])
  exact ⟨h.1, (h.2 100000 120000 ⟨150000, 0, "monitoring"⟩ rfl).mpr (by norm_num)⟩

/-- Claim C10 (counterexample): a stored cumulative of 150000 has reached
the 100000 threshold, yet a subsequent call recording a further
nonnegative 500 in sales emits NO `exceeded` alert (the code compares
`0 + 500` against the threshold), refuting the claimed fresh alert on
every subsequent recording. -/
theorem c10_counterexample :
    (0:ℚ) ≤ 500 ∧ (100000:ℚ) ≤ 150000 ∧
    ¬ ((check_nexus_implications (some 100000) (some ⟨150000, 0, "monitoring"⟩) 500).2 =
        [NexusAlert.nexus_threshold_exceeded]) := by
  refine ⟨by norm_num, by norm_num, ?_⟩
  norm_num [check_nexus_implications]

/-- Claim C7: `_categorize_transaction` is a pure function that returns
(1) the category/subcategory of the FIRST pattern rule in configured order
matching the description, confidence 0.9; else (2) the first amount rule
that fires — a `min_amount` rule when `|amount| ≥ bound` with confidence
0.7, a `max_amount` rule when `|amount| ≤ bound` with confidence 0.6; else
(3) Income/«Unclassified Income» when `amount > 0`, otherwise
Expenses/«Unclassified Expenses», confidence 0.3.  Under the default rules
`classify("SHELL OIL #1234", −65.43) = (Vehicle Expenses, Fuel, 0.9)`. -/
theorem c7_classifier_first_match (pats : List PatternRule) (amts : List AmountRule)
    (desc : String) (amt : ℚ) :
    (∀ r, pats.find? (patternMatches desc) = some r →
        categorize_transaction pats amts desc amt = (r.category, r.subcategory, 9/10)) ∧
    (∀ b c s, pats.find? (patternMatches desc) = none →
        amts.find? (amountRuleFires amt) = some (.min_amount b c s) →
        categorize_transaction pats amts desc amt = (c, s, 7/10)) ∧
    (∀ b c s, pats.find? (patternMatches desc) = none →
        amts.find? (amountRuleFires amt) = some (.max_amount b c s) →
        categorize_transaction pats amts desc amt = (c, s, 6/10)) ∧
    (pats.find? (patternMatches desc) = none →
        amts.find? (amountRuleFires amt) = none → 0 < amt →
        categorize_transaction pats amts desc amt = ("Income", "Unclassified Income", 3/10)) ∧
    (pats.find? (patternMatches desc) = none →
        amts.find? (amountRuleFires amt) = none → amt ≤ 0 →
        categorize_transaction pats amts desc amt = ("Expenses", "Unclassified Expenses", 3/10)) ∧
    categorize_transaction default_patterns default_amount_rules "SHELL OIL #1234" (-6543/100)
      = ("Vehicle Expenses", "Fuel", 9/10) := by
  refine ⟨?_, ?_, ?_, ?_, ?_, rfl⟩
  · intro r h; simp [categorize_transaction, h]
  · intro b c s h1 h2; simp [categorize_transaction, h1, h2, amountRuleResult]
  · intro b c s h1 h2; simp [categorize_transaction, h1, h2, amountRuleResult]
  · intro h1 h2 h3; simp [categorize_transaction, h1, h2, h3]
  · intro h1 h2 h3; simp [categorize_transaction, h1, h2, not_lt.mpr h3]

/-- Witness for C7: the pattern branch fires on a matching description and
the min-amount branch fires on a large unmatched amount. -/
theorem c7_witness :
    categorize_transaction default_patterns default_amount_rules "GAS STATION 42" (-30)
      = ("Vehicle Expenses", "Fuel", 9/10) ∧
    categorize_transaction default_patterns default_amount_rules "ZZZ" 6000
      = ("Equipment", "Major Equipment", 7/10) := by
  constructor
  · exact (c7_classifier_first_match default_patterns default_amount_rules
      "GAS STATION 42" (-30)).1
      ⟨["gas", "fuel", "shell", "exxon", "bp"], "Vehicle Expenses", "Fuel"⟩ rfl
  · exact (c7_classifier_first_match default_patterns default_amount_rules
      "ZZZ" 6000).2.1 5000 "Equipment" "Major Equipment" rfl
      (by norm_num [default_amount_rules, List.find?, amountRuleFires])

/-- `quarterEnd` really is the least quarter-end month at or after the
period's month, for any month of a valid `YYYY-MM` period. -/
theorem quarterEnd_is_next (month : ℕ) (h1 : 1 ≤ month) (h2 : month ≤ 12) :
    quarterEnd month ∈ ([3, 6, 9, 12] : List ℕ) ∧ month ≤ quarterEnd month ∧
      ∀ m ∈ ([3, 6, 9, 12] : List ℕ), month ≤ m → quarterEnd month ≤ m := by
  interval_cases month <;> decide

/-- Claim C9: `_generate_filing_requirements`/`_calculate_due_date` for a
single calculation — tax due above 20000 files monthly, due the 20th of
the following month; above 1200 files quarterly, due the 20th of the month
after the next quarter-end (3/6/9/12) at or after the period's month;
otherwise annually, due January 31 of the following year; and no
requirement at all when the tax due is ≤ 0. -/
theorem c9_filing_requirements (tax_due : ℚ) (year : ℤ) (month : ℕ)
    (h1 : 1 ≤ month) (h2 : month ≤ 12) :
    (20000 < tax_due →
      generate_filing_requirement tax_due year month =
        some ⟨"monthly",
          if month = 12 then ⟨year + 1, 1, 20⟩ else ⟨year, month + 1, 20⟩⟩) ∧
    (1200 < tax_due → tax_due ≤ 20000 →
      ∃ q, q ∈ ([3, 6, 9, 12] : List ℕ) ∧ month ≤ q ∧
        (∀ m ∈ ([3, 6, 9, 12] : List ℕ), month ≤ m → q ≤ m) ∧
        generate_filing_requirement tax_due year month =
          some ⟨"quarterly", if q = 12 then ⟨year + 1, 1, 20⟩ else ⟨year, q + 1, 20⟩⟩) ∧
    (0 < tax_due → tax_due ≤ 1200 →
      generate_filing_requirement tax_due year month =
        some ⟨"annually", ⟨year + 1, 1, 31⟩⟩) ∧
    (tax_due ≤ 0 → generate_filing_requirement tax_due year month = none) := by
  refine ⟨?_, ?_, ?_, ?_⟩
  · intro h
    have h0 : (0:ℚ) < tax_due := by linarith
    simp [generate_filing_requirement, calculate_due_date, h, h0]
  · intro hlo hhi
    have h0 : (0:ℚ) < tax_due := by linarith
    refine ⟨quarterEnd month, (quarterEnd_is_next month h1 h2).1,
      (quarterEnd_is_next month h1 h2).2.1, (quarterEnd_is_next month h1 h2).2.2, ?_⟩
    simp [generate_filing_requirement, calculate_due_date, h0, not_lt.mpr hhi, hlo]
  · intro h0 hhi
    have hq : ¬ (1200:ℚ) < tax_due := not_lt.mpr hhi
    have hm : ¬ (20000:ℚ) < tax_due := by push_neg at hq ⊢; linarith
    simp [generate_filing_requirement, calculate_due_date, h0, hm, hq]
  · intro h
    simp [generate_filing_requirement, not_lt.mpr h]

/-- Witness for C9: 25000 of tax due for period 2024-12 files monthly, due
2025-01-20. -/
theorem c9_witness :
    generate_filing_requirement 25000 2024 12 =
      some ⟨"monthly", if 12 = 12 then ⟨2024 + 1, 1, 20⟩ else ⟨2024, 12 + 1, 20⟩⟩ :=
  (c9_filing_requirements 25000 2024 12 (by norm_num) (by norm_num)).1 (by norm_num)

end MCPAccounting
